import Mathlib

/-!
Verification of the plane-solid intersection pipeline
(`intersector.py`, `step_file_lib.py`, `common_lib.py`).

The embedding models:
- POSIX path manipulation used by `common_lib.output_file_path`
  (`os.path.split` / `os.path.join`, and `os.path.splitext` on basenames),
  with paths as lists of characters;
- geometry values: points/normals as rational triples (the Python floats are
  modelled as exact rationals), planes (`gp_Pln`), bounding boxes (`Bnd_Box`),
  rectangular faces (`BRepBuilderAPI_MakeFace` on a plane with u/v bounds);
- topological shapes (`TopoDS_Shape`) as finitely-branching trees of
  sub-shapes tagged with an entity kind, with the `TopExp_Explorer`
  edge search as a recursive traversal;
- the OpenCascade kernel as a record of oracle functions (`Kernel`): the
  pipeline's behaviour is a pure function of the kernel's answers;
- the pipeline functions `read_step_geometry`, `write_step_geometry`,
  `create_plane_point_normal`, `find_intersection`, `compute_dimensions`,
  `create_face` and the orchestrating `main`, each also producing the list
  of observable events (file reads/writes, log-file opens, terminal prints)
  in the order the source performs them.
-/

namespace StepIntersector

/-- Paths and message strings are modelled as lists of characters. -/
abbrev Str := List Char

/-- Coerces a Lean string literal into the character-list representation. -/
def str (s : String) : Str := s.data

/-- Tests whether a path begins with the POSIX separator (absolute path). -/
def strStartsSlash : Str → Bool
  | [] => false
  | c :: _ => c == '/'

/-- Tests whether a path ends with the POSIX separator. -/
def strEndsSlash (s : Str) : Bool :=
  match s.reverse with
  | [] => false
  | c :: _ => c == '/'

/-- Model of the two-argument `os.path.join` (posixpath): an absolute second
component discards the first; otherwise the components are concatenated,
inserting a separator unless the first is empty or already ends in one. -/
def posixJoin (path b : Str) : Str :=
  if strStartsSlash b then b
  else if path = [] ∨ strEndsSlash path then path ++ b
  else path ++ ['/'] ++ b

/-- Strips trailing separators, as `str.rstrip('/')` does. -/
def rstripSlashes (l : Str) : Str :=
  (l.reverse.dropWhile (fun c => c == '/')).reverse

/-- Model of `os.path.split` (posixpath): splits after the last separator,
then strips trailing separators from the head unless the head is empty or
consists only of separators. -/
def posixSplit (p : Str) : Str × Str :=
  let rev := p.reverse
  let tailRev := rev.takeWhile (fun c => c != '/')
  let headRev := rev.dropWhile (fun c => c != '/')
  let head := headRev.reverse
  let head2 :=
    if head = [] then head
    else if head.all (fun c => c == '/') then head
    else rstripSlashes head
  (head2, tailRev.reverse)

/-- Model of `os.path.splitext` restricted to basenames (no separator), which
is how the source applies it: splits at the last dot provided some character
before that dot is not itself a dot (leading dots never start an extension). -/
def splitext (p : Str) : Str × Str :=
  let rev := p.reverse
  let extRev := rev.takeWhile (fun c => c != '.')
  let restRev := rev.dropWhile (fun c => c != '.')
  match restRev with
  | [] => (p, [])
  | _ :: baseRev =>
    if baseRev.reverse.any (fun c => c != '.') then
      (baseRev.reverse, '.' :: extRev.reverse)
    else (p, [])

/-- Model of `common_lib.output_file_path`: `os.path.join` of the directory
part of `input_file` (from `os.path.split`) with `filename`. -/
def output_file_path (input_file filename : Str) : Str :=
  posixJoin (posixSplit input_file).1 filename

/-- The module-level log file name of `step_file_lib` (`lib_occ.log`). -/
def log_file : Str := str "lib_occ.log"

/-- A point or vector with three rational coordinates (the source's floats
are modelled as exact rationals). -/
structure Vec3 where
  x : ℚ
  y : ℚ
  z : ℚ
deriving DecidableEq, Repr

/-- The zero vector, the degenerate normal `gp_Dir` rejects. -/
def vecZero : Vec3 := { x := 0, y := 0, z := 0 }

/-- Model of `gp_Pln` as constructed by `create_plane_point_normal`: the
defining point and (non-zero) normal direction. -/
structure GpPln where
  point : Vec3
  normal : Vec3
deriving DecidableEq, Repr

/-- Error kinds a pipeline run can terminate with.  The source raises
`OSError` from `check_file`, OpenCascade's construction error from `gp_Dir`
on a degenerate normal (the spec's `InvalidPlaneSpec`, as is the arity check
in `main`), and `RuntimeError` for load, section and write failures. -/
inductive RunError where
  | FileNotFound
  | InvalidPlaneSpec
  | GeometryLoadFailed
  | SectionComputationFailed
  | GeometryWriteFailed
deriving DecidableEq, Repr

/-- Model of `create_plane_point_normal` (`step_file_lib.py` lines 130-146):
`gp_Dir` raises a construction error when the normal has zero magnitude
(modelled for the exact zero vector), otherwise the plane is built from the
point and the normal. -/
def create_plane_point_normal (plane_point plane_normal : Vec3) :
    Except RunError GpPln :=
  if plane_normal = vecZero then Except.error RunError.InvalidPlaneSpec
  else Except.ok { point := plane_point, normal := plane_normal }

/-- The topological entity kinds of `TopAbs` relevant to the traversal. -/
inductive ShapeKind where
  | vertex | edge | wire | face | shell | solid | compound
deriving DecidableEq, Repr

/-- A `TopoDS_Shape` modelled as a finitely-branching tree: an entity kind
together with its list of sub-shapes. -/
inductive Shape where
  | node : ShapeKind → List Shape → Shape

mutual
/-- Model of `TopExp_Explorer(shape, TopAbs_EDGE).More()`: the explorer
visits the shape and all of its sub-shapes, reporting whether any visited
entity is edge-typed (`step_file_lib.py` lines 195-196). -/
def hasEdge : Shape → Bool
  | Shape.node k subs => (k == ShapeKind.edge) || hasEdgeList subs
/-- Edge search over a list of sub-shapes, part of the explorer model. -/
def hasEdgeList : List Shape → Bool
  | [] => false
  | s :: rest => hasEdge s || hasEdgeList rest
end

/-- The specification-side predicate: the shape contains at least one
edge entity, either at the root or inside some sub-shape. -/
inductive ContainsEdge : Shape → Prop where
  | self (subs : List Shape) : ContainsEdge (Shape.node ShapeKind.edge subs)
  | child (k : ShapeKind) (subs : List Shape) (s : Shape)
      (hmem : s ∈ subs) (h : ContainsEdge s) : ContainsEdge (Shape.node k subs)

/-- Model of `Bnd_Box.Get()`: the six extremal coordinates. -/
structure BndBox where
  xmin : ℚ
  ymin : ℚ
  zmin : ℚ
  xmax : ℚ
  ymax : ℚ
  zmax : ℚ
deriving DecidableEq, Repr

/-- Model of `compute_dimensions` (`step_file_lib.py` lines 103-126): the
bounding box is delivered by the kernel (`brepbndlib.Add`); the function
returns the coordinate spans `(dx, dy, dz)`. -/
def compute_dimensions (b : BndBox) : ℚ × ℚ × ℚ :=
  (b.xmax - b.xmin, b.ymax - b.ymin, b.zmax - b.zmin)

/-- The scalar extent `main` derives (`intersector.py` lines 83-84):
`max(dx, dy, dz)` of the bounding-box spans. -/
def extentOf (b : BndBox) : ℚ :=
  let d := compute_dimensions b
  max d.1 (max d.2.1 d.2.2)

/-- Scales all six bounding-box coordinates by a factor, the effect on the
box of scaling the solid uniformly. -/
def scaleBBox (k : ℚ) (b : BndBox) : BndBox :=
  { xmin := k * b.xmin, ymin := k * b.ymin, zmin := k * b.zmin,
    xmax := k * b.xmax, ymax := k * b.ymax, zmax := k * b.zmax }

/-- Model of the face built by `BRepBuilderAPI_MakeFace(plane, u1, u2, v1, v2)`:
the carrier plane and the parameter bounds. -/
structure Face where
  plane : GpPln
  uMin : ℚ
  uMax : ℚ
  vMin : ℚ
  vMax : ℚ
deriving DecidableEq, Repr

/-- Model of `create_face` (`step_file_lib.py` lines 226-240): a rectangular
face on the plane bounded by `-dimension .. dimension` in both u and v. -/
def create_face (plane : GpPln) (dimension : ℚ) : Face :=
  { plane := plane, uMin := -dimension, uMax := dimension,
    vMin := -dimension, vMax := dimension }

/-- The OpenCascade kernel and the file system, abstracted as oracles.  The
pipeline is a pure function of these answers:
`isFile` models `os.path.isfile` (used by `check_file`);
`readStep` models the `STEPControl_Reader` sequence of `read_step_geometry`
(`ReadFile`/`TransferRoots`/`OneShape`), with `none` covering any of its
three failure modes;
`sectionShape` models `BRepAlgoAPI_Section(shape, plane, True)` with
`ComputePCurveOn1(True)`, `Approximation(True)` and `Build()`, returning the
section shape, with `none` when `IsDone()` is false;
`boundingBox` models `brepbndlib.Add` filling a `Bnd_Box`;
`writeStatus` models `STEPControl_Writer.Write` (1 means success). -/
structure Kernel where
  isFile : Str → Bool
  readStep : Str → Option Shape
  sectionShape : Shape → GpPln → Option Shape
  boundingBox : Shape → BndBox
  writeStatus : Shape → Str → Int

/-- Observable events of a run, in program order: the `os.path.isfile`
check, each `redirect_output` opening of a log file for append, the STEP
read, terminal prints, the PNG screenshot export, and the STEP write. -/
inductive Event where
  | statFile (path : Str)
  | logOpen (path : Str)
  | readStepFile (path : Str)
  | printMsg (msg : Str)
  | renderImage (path : Str) (f : Face)
  | writeStepFile (path : Str)
deriving DecidableEq, Repr

/-- The events of a successful `read_step_geometry` call: three redirected
kernel blocks logging to the input file's directory, the STEP read, and the
two success messages printed to the terminal between the blocks. -/
def readOkTrace (step_filename : Str) : List Event :=
  [Event.logOpen (output_file_path step_filename log_file),
   Event.readStepFile step_filename,
   Event.printMsg (str "STEP file has been read sucessfully"),
   Event.logOpen (output_file_path step_filename log_file),
   Event.printMsg (str "STEP file contents have been transfered sucessfully"),
   Event.logOpen (output_file_path step_filename log_file)]

/-- Model of `read_step_geometry` (`step_file_lib.py` lines 40-76): the log
path is `output_file_path(step_filename, log_file)`; on failure of the read
sequence a `RuntimeError` aborts the run (the three distinct read failures
are collapsed into the kernel's single `none` answer). -/
def read_step_geometry (K : Kernel) (step_filename : Str) :
    List Event × Except RunError Shape :=
  match K.readStep step_filename with
  | none =>
      ([Event.logOpen (output_file_path step_filename log_file),
        Event.readStepFile step_filename],
       Except.error RunError.GeometryLoadFailed)
  | some shape => (readOkTrace step_filename, Except.ok shape)

/-- Model of `write_step_geometry` (`step_file_lib.py` lines 80-99): the log
path is derived from the OUTPUT file (`output_file_path(output_file,
log_file)`), the shape is transferred and written under redirection, and the
raw writer status is returned. -/
def write_step_geometry (K : Kernel) (shape : Shape) (output_file : Str) :
    List Event × Int :=
  ([Event.logOpen (output_file_path output_file log_file),
    Event.writeStepFile output_file],
   K.writeStatus shape output_file)

/-- The events a successful `find_intersection` emits after loading: the
redirected section computation, the terminal success message, and the
redirected classification block. -/
def sectionOkTrace (step_filename : Str) : List Event :=
  readOkTrace step_filename ++
    [Event.logOpen (output_file_path step_filename log_file),
     Event.printMsg (str "Computation of intersection finished sucessfully"),
     Event.logOpen (output_file_path step_filename log_file)]

/-- Model of `find_intersection` (`step_file_lib.py` lines 150-201): loads
the STEP geometry, builds the plane from point and normal, runs the
section operation under redirection (failure of `IsDone()` raises), and
classifies by the edge-explorer: the returned flag is true exactly when the
section shape has an edge. -/
def find_intersection (K : Kernel) (step_filename : Str)
    (plane_point plane_normal : Vec3) :
    List Event × Except RunError (Shape × GpPln × Shape × Bool) :=
  let rd := read_step_geometry K step_filename
  match rd.2 with
  | Except.error e => (rd.1, Except.error e)
  | Except.ok shape =>
    match create_plane_point_normal plane_point plane_normal with
    | Except.error e => (rd.1, Except.error e)
    | Except.ok plane =>
      match K.sectionShape shape plane with
      | none =>
          (rd.1 ++ [Event.logOpen (output_file_path step_filename log_file)],
           Except.error RunError.SectionComputationFailed)
      | some result_shape =>
          (sectionOkTrace step_filename,
           Except.ok (shape, plane, result_shape, hasEdge result_shape))

/-- The spec's tagged section outcome. -/
inductive SectionResult where
  | empty : SectionResult
  | nonEmpty (resultGeometry : Shape) : SectionResult

/-- The tag the pipeline's boolean classification denotes: `nonEmpty` with
the section geometry when the flag is true, `empty` otherwise. -/
def sectionResult (result_shape : Shape) (result : Bool) : SectionResult :=
  if result then SectionResult.nonEmpty result_shape else SectionResult.empty

/-- The spec's terminal pipeline outcome. -/
inductive MainOutcome where
  | intersects (outputFile imageFile : Str)
  | noIntersection
deriving DecidableEq, Repr

/-- The first three `--in-plane` values, the plane point
(`args.in_plane[:3]` in `intersector.py`). -/
def plane_point_of (vals : List ℚ) : Vec3 :=
  { x := (vals.take 3).getD 0 0, y := (vals.take 3).getD 1 0,
    z := (vals.take 3).getD 2 0 }

/-- The last three `--in-plane` values, the plane normal
(`args.in_plane[3:]` in `intersector.py`). -/
def plane_normal_of (vals : List ℚ) : Vec3 :=
  { x := (vals.drop 3).getD 0 0, y := (vals.drop 3).getD 1 0,
    z := (vals.drop 3).getD 2 0 }

/-- The PNG output path `main` builds: the input file's stem (via
`os.path.split` and `os.path.splitext`) with extension `.png`, placed in the
input file's directory by `output_file_path`. -/
def pngPath (step_file : Str) : Str :=
  output_file_path step_file ((splitext (posixSplit step_file).2).1 ++ str ".png")

/-- Events the `result` branch of `main` appends before the write: one
redirected visualization block and the screenshot export. -/
def visTrace (step_file : Str) (face : Face) : List Event :=
  [Event.logOpen (output_file_path step_file log_file),
   Event.renderImage (pngPath step_file) face]

/-- Model of `intersector.main` (`intersector.py` lines 38-106).  Argument
parsing: `check_file` on `--in-step` (an `OSError` if the file does not
exist), then the arity check on `--in-plane` (exactly 6 numbers, else an
`ArgumentTypeError`, the spec's `InvalidPlaneSpec`).  Then
`find_intersection`; on a true result the bounding-box extent is computed,
the plane face is built with that extent, the PNG is exported, and the
result shape is written via `write_step_geometry`, a non-1 status raising
`RuntimeError`; on a false result only the no-intersection notice is
printed. -/
def main (K : Kernel) (in_step : Str) (in_plane : List ℚ) (out_step : Str) :
    List Event × Except RunError MainOutcome :=
  if K.isFile in_step = false then
    ([Event.statFile in_step], Except.error RunError.FileNotFound)
  else if in_plane.length ≠ 6 then
    ([Event.statFile in_step], Except.error RunError.InvalidPlaneSpec)
  else
    let fr := find_intersection K in_step (plane_point_of in_plane)
      (plane_normal_of in_plane)
    match fr.2 with
    | Except.error e => (Event.statFile in_step :: fr.1, Except.error e)
    | Except.ok (shape, plane, result_shape, result) =>
      if result then
        let dimension := extentOf (K.boundingBox shape)
        let face := create_face plane dimension
        let output_file := output_file_path in_step out_step
        let wr := write_step_geometry K result_shape output_file
        let tr := Event.statFile in_step :: fr.1 ++ visTrace in_step face ++ wr.1
        if wr.2 ≠ 1 then
          (tr, Except.error RunError.GeometryWriteFailed)
        else
          (tr ++
            [Event.printMsg (str "Intersection found and written to: " ++ out_step),
             Event.printMsg
               (str "A png file with the geometry and the plane has been written to: "
                 ++ pngPath in_step)],
           Except.ok (MainOutcome.intersects output_file (pngPath in_step)))
      else
        (Event.statFile in_step :: fr.1 ++
           [Event.printMsg (str "No intersection found")],
         Except.ok MainOutcome.noIntersection)

/-- Events that read or write geometry or image data (the STEP read, the
STEP write, the screenshot export), as opposed to metadata checks, log-file
opens and terminal prints. -/
def isGeometryIO : Event → Bool
  | Event.readStepFile _ => true
  | Event.writeStepFile _ => true
  | Event.renderImage _ _ => true
  | _ => false

/-- The log paths opened during a run, in order. -/
def logPaths (tr : List Event) : List Str :=
  tr.filterMap (fun e => match e with
    | Event.logOpen p => some p
    | _ => none)

/-- A shape that is a single edge. -/
def edgeShape : Shape := Shape.node ShapeKind.edge []

/-- A shape that is a single vertex. -/
def vertexShape : Shape := Shape.node ShapeKind.vertex []

/-- A section result holding one edge inside a compound. -/
def sampleSection : Shape := Shape.node ShapeKind.compound [edgeShape]

/-- A section result holding only a vertex: no edge anywhere. -/
def emptySection : Shape := Shape.node ShapeKind.compound [vertexShape]

/-- A sample loaded solid. -/
def cube : Shape := Shape.node ShapeKind.solid []

/-- A sample bounding box with spans (1, 2, 3). -/
def box0 : BndBox :=
  { xmin := 0, ymin := 0, zmin := 0, xmax := 1, ymax := 2, zmax := 3 }

/-- A kernel whose section result contains an edge and whose write
succeeds. -/
def K0 : Kernel :=
  { isFile := fun _ => true,
    readStep := fun _ => some cube,
    sectionShape := fun _ _ => some sampleSection,
    boundingBox := fun _ => box0,
    writeStatus := fun _ _ => 1 }

/-- A kernel whose section result contains no edge. -/
def Kempty : Kernel :=
  { K0 with sectionShape := fun _ _ => some emptySection }

/-- A kernel whose section result contains an edge but whose write reports
a failing status. -/
def Kwfail : Kernel :=
  { K0 with writeStatus := fun _ _ => 0 }

/-- A sample input STEP path. -/
def inPath : Str := str "/a/in.stp"

/-- A sample relative output filename (the CLI default is like this). -/
def outName : Str := str "intersection.stp"

/-- A sample absolute output filename. -/
def outAbs : Str := str "/b/out.stp"

end StepIntersector

namespace StepIntersector

/-- Edge search over a list succeeds exactly when some member shape has an
edge. -/
theorem hasEdgeList_eq_true_iff (l : List Shape) :
    hasEdgeList l = true ↔ ∃ s ∈ l, hasEdge s = true := by
  induction l with
  | nil => simp [hasEdgeList]
  | cons s rest ih =>
      simp [hasEdgeList, Bool.or_eq_true, ih]

/-- Soundness of the explorer: a successful edge search exhibits an edge
entity in the shape tree. -/
theorem hasEdge_to_containsEdge : (s : Shape) → hasEdge s = true → ContainsEdge s
  | Shape.node k subs, h => by
    rw [hasEdge, Bool.or_eq_true] at h
    rcases h with h1 | h2
    · have hk : k = ShapeKind.edge := by simpa using h1
      subst hk
      exact ContainsEdge.self subs
    · obtain ⟨s, hmem, hs⟩ := (hasEdgeList_eq_true_iff subs).mp h2
      exact ContainsEdge.child k subs s hmem (hasEdge_to_containsEdge s hs)
termination_by s => sizeOf s
decreasing_by
  have hlt := List.sizeOf_lt_of_mem hmem
  simp only [Shape.node.sizeOf_spec]
  omega

/-- Completeness of the explorer: every edge entity in the tree is found. -/
theorem containsEdge_to_hasEdge (s : Shape) (h : ContainsEdge s) :
    hasEdge s = true := by
  induction h with
  | self subs => simp [hasEdge]
  | child k subs s hmem h ih =>
      have hl : hasEdgeList subs = true :=
        (hasEdgeList_eq_true_iff subs).mpr ⟨s, hmem, ih⟩
      simp [hasEdge, hl]

/-- The explorer-based boolean agrees with the existence of an edge entity. -/
theorem hasEdge_iff_containsEdge (s : Shape) :
    hasEdge s = true ↔ ContainsEdge s :=
  ⟨hasEdge_to_containsEdge s, containsEdge_to_hasEdge s⟩

/-- Unfolding lemma: a run whose read, plane construction and section all
succeed returns the loaded shape, the plane, the section shape, and the
edge-explorer flag on the section shape. -/
theorem find_intersection_success (K : Kernel) (f : Str) (p n : Vec3)
    (s rs : Shape) (hr : K.readStep f = some s) (hn : n ≠ vecZero)
    (hs : K.sectionShape s { point := p, normal := n } = some rs) :
    find_intersection K f p n =
      (sectionOkTrace f,
       Except.ok (s, { point := p, normal := n }, rs, hasEdge rs)) := by
  simp [find_intersection, read_step_geometry, hr, create_plane_point_normal,
    hn, hs]

/-- The first three of six plane values form the point. -/
theorem plane_point_of_six (x y z nx ny nz : ℚ) :
    plane_point_of [x, y, z, nx, ny, nz] = { x := x, y := y, z := z } := rfl

/-- The last three of six plane values form the normal. -/
theorem plane_normal_of_six (x y z nx ny nz : ℚ) :
    plane_normal_of [x, y, z, nx, ny, nz] = { x := nx, y := ny, z := nz } := rfl

/-- Unfolding lemma: the empty-classification branch of `main` prints the
notice and succeeds. -/
theorem main_empty (K : Kernel) (f out : Str) (x y z nx ny nz : ℚ)
    (s rs : Shape)
    (hfile : K.isFile f = true)
    (hr : K.readStep f = some s)
    (hn : Vec3.mk nx ny nz ≠ vecZero)
    (hs : K.sectionShape s
      { point := Vec3.mk x y z, normal := Vec3.mk nx ny nz } = some rs)
    (he : hasEdge rs = false) :
    main K f [x, y, z, nx, ny, nz] out =
      (Event.statFile f :: sectionOkTrace f ++
         [Event.printMsg (str "No intersection found")],
       Except.ok MainOutcome.noIntersection) := by
  have hfi := find_intersection_success K f ⟨x, y, z⟩ ⟨nx, ny, nz⟩ s rs hr hn hs
  simp [main, hfile, plane_point_of_six, plane_normal_of_six, hfi, he]

/-- Unfolding lemma: the non-empty branch of `main` with a failing write
status ends in the write error, after the render and write events. -/
theorem main_nonempty_fail (K : Kernel) (f out : Str) (x y z nx ny nz : ℚ)
    (s rs : Shape)
    (hfile : K.isFile f = true)
    (hr : K.readStep f = some s)
    (hn : Vec3.mk nx ny nz ≠ vecZero)
    (hs : K.sectionShape s
      { point := Vec3.mk x y z, normal := Vec3.mk nx ny nz } = some rs)
    (he : hasEdge rs = true)
    (hw : K.writeStatus rs (output_file_path f out) ≠ 1) :
    main K f [x, y, z, nx, ny, nz] out =
      (Event.statFile f :: sectionOkTrace f ++
         visTrace f (create_face
           { point := Vec3.mk x y z, normal := Vec3.mk nx ny nz }
           (extentOf (K.boundingBox s))) ++
         [Event.logOpen (output_file_path (output_file_path f out) log_file),
          Event.writeStepFile (output_file_path f out)],
       Except.error RunError.GeometryWriteFailed) := by
  have hfi := find_intersection_success K f ⟨x, y, z⟩ ⟨nx, ny, nz⟩ s rs hr hn hs
  simp [main, hfile, plane_point_of_six, plane_normal_of_six, hfi, he,
    write_step_geometry, hw]

/-- Unfolding lemma: the non-empty branch of `main` with a successful write
status reports both output paths. -/
theorem main_nonempty_ok (K : Kernel) (f out : Str) (x y z nx ny nz : ℚ)
    (s rs : Shape)
    (hfile : K.isFile f = true)
    (hr : K.readStep f = some s)
    (hn : Vec3.mk nx ny nz ≠ vecZero)
    (hs : K.sectionShape s
      { point := Vec3.mk x y z, normal := Vec3.mk nx ny nz } = some rs)
    (he : hasEdge rs = true)
    (hw : K.writeStatus rs (output_file_path f out) = 1) :
    main K f [x, y, z, nx, ny, nz] out =
      (Event.statFile f :: sectionOkTrace f ++
         visTrace f (create_face
           { point := Vec3.mk x y z, normal := Vec3.mk nx ny nz }
           (extentOf (K.boundingBox s))) ++
         [Event.logOpen (output_file_path (output_file_path f out) log_file),
          Event.writeStepFile (output_file_path f out)] ++
         [Event.printMsg (str "Intersection found and written to: " ++ out),
          Event.printMsg
            (str "A png file with the geometry and the plane has been written to: "
              ++ pngPath f)],
       Except.ok (MainOutcome.intersects (output_file_path f out) (pngPath f))) := by
  have hfi := find_intersection_success K f ⟨x, y, z⟩ ⟨nx, ny, nz⟩ s rs hr hn hs
  simp [main, hfile, plane_point_of_six, plane_normal_of_six, hfi, he,
    write_step_geometry, hw]

/-- Inversion: whenever `find_intersection` succeeds, the returned flag is
the edge-explorer answer on the returned section shape. -/
theorem find_intersection_ok_flag (K : Kernel) (f : Str) (p n : Vec3)
    (tr : List Event) (s : Shape) (pl : GpPln) (rs : Shape) (r : Bool)
    (h : find_intersection K f p n = (tr, Except.ok (s, pl, rs, r))) :
    r = hasEdge rs := by
  unfold find_intersection at h
  cases hK : K.readStep f with
  | none => simp [read_step_geometry, hK] at h
  | some s0 =>
      by_cases hn : n = vecZero
      · simp [read_step_geometry, hK, create_plane_point_normal, hn] at h
      · cases hS : K.sectionShape s0 { point := p, normal := n } with
        | none =>
            simp [read_step_geometry, hK, create_plane_point_normal, hn, hS]
              at h
        | some rs0 =>
            simp [read_step_geometry, hK, create_plane_point_normal, hn, hS,
              Prod.mk.injEq] at h
            obtain ⟨-, -, -, h4, h5⟩ := h
            rw [← h5, h4]

/-- C1: for every solid and plane, `find_intersection` classifies the
section as non-empty exactly when the result geometry contains at least one
edge entity (found by the edge-typed traversal); faces or vertices without
any edge yield the empty classification. -/
theorem c1_nonempty_iff_edge (K : Kernel) (f : Str) (p n : Vec3)
    (tr : List Event) (s : Shape) (pl : GpPln) (rs : Shape) (r : Bool)
    (h : find_intersection K f p n = (tr, Except.ok (s, pl, rs, r))) :
    (sectionResult rs r = SectionResult.nonEmpty rs ↔ ContainsEdge rs) ∧
    (¬ ContainsEdge rs → sectionResult rs r = SectionResult.empty) := by
  have hr : r = hasEdge rs := find_intersection_ok_flag K f p n tr s pl rs r h
  subst hr
  by_cases he : hasEdge rs = true
  · refine ⟨⟨fun _ => (hasEdge_iff_containsEdge rs).mp he, fun _ => ?_⟩, ?_⟩
    · simp [sectionResult, he]
    · intro hc
      exact absurd ((hasEdge_iff_containsEdge rs).mp he) hc
  · have he2 : hasEdge rs = false := by
      cases hcase : hasEdge rs
      · rfl
      · exact absurd hcase he
    refine ⟨⟨fun heq => ?_, fun hc => ?_⟩, fun _ => ?_⟩
    · rw [sectionResult, he2] at heq
      simp at heq
    · exact absurd ((hasEdge_iff_containsEdge rs).mpr hc) he
    · simp [sectionResult, he2]

/-- C1 witness: a concrete successful run whose section shape holds an edge
inside a compound is classified non-empty. -/
theorem c1_witness :
    (sectionResult sampleSection true = SectionResult.nonEmpty sampleSection ↔
      ContainsEdge sampleSection) ∧
    (¬ ContainsEdge sampleSection →
      sectionResult sampleSection true = SectionResult.empty) :=
  c1_nonempty_iff_edge K0 inPath ⟨0, 0, 0⟩ ⟨0, 0, 1⟩ (sectionOkTrace inPath)
    cube { point := ⟨0, 0, 0⟩, normal := ⟨0, 0, 1⟩ } sampleSection true rfl

/-- C8: `find_intersection` is deterministic: two calls with the same kernel,
file, point and normal return equal outputs; in particular equal tags and
equal edge-presence flags on successful classification. -/
theorem c8_deterministic (K : Kernel) (f : Str) (p n : Vec3)
    (out1 out2 : List Event × Except RunError (Shape × GpPln × Shape × Bool))
    (h1 : find_intersection K f p n = out1)
    (h2 : find_intersection K f p n = out2) :
    out1 = out2 ∧
    ∀ s1 pl1 rs1 r1 s2 pl2 rs2 r2,
      out1.2 = Except.ok (s1, pl1, rs1, r1) →
      out2.2 = Except.ok (s2, pl2, rs2, r2) →
      sectionResult rs1 r1 = sectionResult rs2 r2 ∧ r1 = r2 := by
  subst h1
  subst h2
  refine ⟨rfl, ?_⟩
  intro s1 pl1 rs1 r1 s2 pl2 rs2 r2 e1 e2
  rw [e1] at e2
  obtain ⟨-, -, h3, h4⟩ :
      s1 = s2 ∧ pl1 = pl2 ∧ rs1 = rs2 ∧ r1 = r2 := by
    have := Except.ok.inj e2
    simp [Prod.ext_iff] at this
    exact ⟨this.1, this.2.1, this.2.2.1, this.2.2.2⟩
  subst h3
  subst h4
  exact ⟨rfl, rfl⟩

/-- C8 witness: determinism instantiated at a concrete kernel and inputs. -/
theorem c8_witness :
    find_intersection K0 inPath ⟨0, 0, 0⟩ ⟨0, 0, 1⟩ =
      find_intersection K0 inPath ⟨0, 0, 0⟩ ⟨0, 0, 1⟩ ∧
    ∀ s1 pl1 rs1 r1 s2 pl2 rs2 r2,
      (find_intersection K0 inPath ⟨0, 0, 0⟩ ⟨0, 0, 1⟩).2 =
        Except.ok (s1, pl1, rs1, r1) →
      (find_intersection K0 inPath ⟨0, 0, 0⟩ ⟨0, 0, 1⟩).2 =
        Except.ok (s2, pl2, rs2, r2) →
      sectionResult rs1 r1 = sectionResult rs2 r2 ∧ r1 = r2 :=
  c8_deterministic K0 inPath ⟨0, 0, 0⟩ ⟨0, 0, 1⟩ _ _ rfl rfl

/-- C9: the extent is scale-consistent: scaling all bounding-box coordinates
by a non-negative factor k scales the spans and therefore the returned
extent max(dx, dy, dz) by exactly k. -/
theorem c9_extent_scale (b : BndBox) (k : ℚ) (hk : 0 ≤ k) :
    extentOf (scaleBBox k b) = k * extentOf b := by
  unfold extentOf scaleBBox compute_dimensions
  simp only
  have h1 : k * b.xmax - k * b.xmin = k * (b.xmax - b.xmin) := by ring
  have h2 : k * b.ymax - k * b.ymin = k * (b.ymax - b.ymin) := by ring
  have h3 : k * b.zmax - k * b.zmin = k * (b.zmax - b.zmin) := by ring
  rw [h1, h2, h3, mul_max_of_nonneg _ _ hk, mul_max_of_nonneg _ _ hk]

/-- C9 witness: scaling the sample box by 2 doubles the extent. -/
theorem c9_witness :
    (0 : ℚ) ≤ 2 ∧ extentOf (scaleBBox 2 box0) = 2 * extentOf box0 :=
  ⟨by decide, c9_extent_scale box0 2 (by decide)⟩

/-- C10: `output_file_path` joins the input file's directory with the
filename, and when the filename is absolute the directory is discarded and
the filename itself is returned. -/
theorem c10_output_path_join (input_file filename : Str) :
    output_file_path input_file filename =
      posixJoin (posixSplit input_file).1 filename ∧
    (strStartsSlash filename = true →
      output_file_path input_file filename = filename) := by
  refine ⟨rfl, fun h => ?_⟩
  simp [output_file_path, posixJoin, h]

/-- C10 witness: an absolute out-step filename escapes the input file's
directory. -/
theorem c10_witness :
    output_file_path (str "/data/in.stp") (str "/tmp/out.stp") =
      str "/tmp/out.stp" :=
  (c10_output_path_join (str "/data/in.stp") (str "/tmp/out.stp")).2 (by decide)

/-- Unfolding lemma: with a readable file and the zero normal,
`find_intersection` loads the geometry and then fails in the plane
construction. -/
theorem find_intersection_zero_normal (K : Kernel) (f : Str) (p : Vec3)
    (s : Shape) (hr : K.readStep f = some s) :
    find_intersection K f p vecZero =
      (readOkTrace f, Except.error RunError.InvalidPlaneSpec) := by
  simp [find_intersection, read_step_geometry, hr, create_plane_point_normal]

/-- C3 counterexample: at a concrete run with zero normal the failure is
the degenerate-plane error, yet the solid HAS been loaded from the STEP
file before it — the read event is in the trace, refuting "caught before
any kernel call (in particular before the solid is loaded)". -/
theorem c3_counterexample :
    (main K0 inPath [0, 0, 0, 0, 0, 0] outName).2 =
      Except.error RunError.InvalidPlaneSpec ∧
    Event.readStepFile inPath ∈ (main K0 inPath [0, 0, 0, 0, 0, 0] outName).1 :=
  ⟨rfl, by decide⟩

/-- C3 (amended): for every run with an existing, readable STEP file and
plane normal (0,0,0), the run fails with the degenerate-plane error
(InvalidPlaneSpec), but the failure arises in the kernel's plane
construction after the solid has been loaded from the STEP file. -/
theorem c3_zero_normal_after_load (K : Kernel) (f out : Str) (x y z : ℚ)
    (s : Shape) (hfile : K.isFile f = true) (hr : K.readStep f = some s) :
    (main K f [x, y, z, 0, 0, 0] out).2 =
      Except.error RunError.InvalidPlaneSpec ∧
    Event.readStepFile f ∈ (main K f [x, y, z, 0, 0, 0] out).1 := by
  have hz : plane_normal_of [x, y, z, 0, 0, 0] = vecZero := rfl
  have hfi := find_intersection_zero_normal K f
    (plane_point_of [x, y, z, 0, 0, 0]) s hr
  constructor <;> simp [main, hfile, hz, hfi, readOkTrace]

/-- C3 witness: the amended statement at a concrete kernel and inputs. -/
theorem c3_witness :
    (main K0 inPath [(0 : ℚ), 0, 0, 0, 0, 0] outName).2 =
      Except.error RunError.InvalidPlaneSpec ∧
    Event.readStepFile inPath ∈
      (main K0 inPath [(0 : ℚ), 0, 0, 0, 0, 0] outName).1 :=
  c3_zero_normal_after_load K0 inPath outName 0 0 0 cube rfl rfl

/-- C6: with an existing input file, supplying other than 6 plane numbers
fails with the arity error before any geometry I/O event; with exactly 6
numbers the first three become the point and the last three the normal. -/
theorem c6_plane_arity (K : Kernel) (f : Str) (vals : List ℚ) (out : Str)
    (hfile : K.isFile f = true) :
    (vals.length ≠ 6 →
      main K f vals out =
        ([Event.statFile f], Except.error RunError.InvalidPlaneSpec) ∧
      ∀ e ∈ (main K f vals out).1, isGeometryIO e = false) ∧
    (∀ x y z nx ny nz : ℚ, vals = [x, y, z, nx, ny, nz] →
      plane_point_of vals = { x := x, y := y, z := z } ∧
      plane_normal_of vals = { x := nx, y := ny, z := nz }) := by
  constructor
  · intro hlen
    have hm : main K f vals out =
        ([Event.statFile f], Except.error RunError.InvalidPlaneSpec) := by
      simp [main, hfile, hlen]
    refine ⟨hm, ?_⟩
    intro e he
    rw [hm] at he
    simp at he
    subst he
    rfl
  · intro x y z nx ny nz hv
    subst hv
    exact ⟨plane_point_of_six x y z nx ny nz, plane_normal_of_six x y z nx ny nz⟩

/-- C6 witness: five plane numbers at a concrete kernel give the arity
error with no geometry I/O (the trace holds only the existence check). -/
theorem c6_witness :
    main K0 inPath [(1 : ℚ), 2, 3, 4, 5] outName =
      ([Event.statFile inPath], Except.error RunError.InvalidPlaneSpec) :=
  ((c6_plane_arity K0 inPath [(1 : ℚ), 2, 3, 4, 5] outName rfl).1 (by decide)).1

/-- C4: a run classified empty terminates successfully with the
no-intersection notice, writing no STEP output and no image. -/
theorem c4_empty_run (K : Kernel) (f out : Str) (x y z nx ny nz : ℚ)
    (s rs : Shape)
    (hfile : K.isFile f = true)
    (hr : K.readStep f = some s)
    (hn : Vec3.mk nx ny nz ≠ vecZero)
    (hs : K.sectionShape s
      { point := Vec3.mk x y z, normal := Vec3.mk nx ny nz } = some rs)
    (he : hasEdge rs = false) :
    (main K f [x, y, z, nx, ny, nz] out).2 =
      Except.ok MainOutcome.noIntersection ∧
    Event.printMsg (str "No intersection found") ∈
      (main K f [x, y, z, nx, ny, nz] out).1 ∧
    (∀ q, Event.writeStepFile q ∉ (main K f [x, y, z, nx, ny, nz] out).1) ∧
    (∀ q fc, Event.renderImage q fc ∉ (main K f [x, y, z, nx, ny, nz] out).1) := by
  have hm := main_empty K f out x y z nx ny nz s rs hfile hr hn hs he
  rw [hm]
  refine ⟨rfl, ?_, ?_, ?_⟩ <;> simp [sectionOkTrace, readOkTrace]

/-- C4 witness: a concrete run whose section holds only a vertex ends as a
non-error no-intersection outcome without output events. -/
theorem c4_witness :
    (main Kempty inPath [(0 : ℚ), 0, 0, 0, 0, 1] outName).2 =
      Except.ok MainOutcome.noIntersection ∧
    Event.printMsg (str "No intersection found") ∈
      (main Kempty inPath [(0 : ℚ), 0, 0, 0, 0, 1] outName).1 ∧
    (∀ q, Event.writeStepFile q ∉
      (main Kempty inPath [(0 : ℚ), 0, 0, 0, 0, 1] outName).1) ∧
    (∀ q fc, Event.renderImage q fc ∉
      (main Kempty inPath [(0 : ℚ), 0, 0, 0, 0, 1] outName).1) :=
  c4_empty_run Kempty inPath outName 0 0 0 0 0 1 cube emptySection rfl rfl
    (by decide) rfl rfl

/-- C5: in a non-empty run whose write status is not success, the run fails
with the write error, and the image export event precedes the STEP write
event in the trace (the image, already produced, is never removed: the run
has no rollback event of any kind). -/
theorem c5_write_fail_keeps_image (K : Kernel) (f out : Str)
    (x y z nx ny nz : ℚ) (s rs : Shape)
    (hfile : K.isFile f = true)
    (hr : K.readStep f = some s)
    (hn : Vec3.mk nx ny nz ≠ vecZero)
    (hs : K.sectionShape s
      { point := Vec3.mk x y z, normal := Vec3.mk nx ny nz } = some rs)
    (he : hasEdge rs = true)
    (hw : K.writeStatus rs (output_file_path f out) ≠ 1) :
    (main K f [x, y, z, nx, ny, nz] out).2 =
      Except.error RunError.GeometryWriteFailed ∧
    List.Sublist
      [Event.renderImage (pngPath f)
         (create_face { point := Vec3.mk x y z, normal := Vec3.mk nx ny nz }
           (extentOf (K.boundingBox s))),
       Event.writeStepFile (output_file_path f out)]
      (main K f [x, y, z, nx, ny, nz] out).1 ∧
    Event.renderImage (pngPath f)
        (create_face { point := Vec3.mk x y z, normal := Vec3.mk nx ny nz }
          (extentOf (K.boundingBox s)))
      ∈ (main K f [x, y, z, nx, ny, nz] out).1 := by
  have hm := main_nonempty_fail K f out x y z nx ny nz s rs hfile hr hn hs he hw
  rw [hm]
  refine ⟨rfl, ?_, ?_⟩
  · have htr : Event.statFile f :: sectionOkTrace f ++
        visTrace f (create_face
          { point := Vec3.mk x y z, normal := Vec3.mk nx ny nz }
          (extentOf (K.boundingBox s))) ++
        [Event.logOpen (output_file_path (output_file_path f out) log_file),
         Event.writeStepFile (output_file_path f out)] =
        (Event.statFile f :: sectionOkTrace f ++
          [Event.logOpen (output_file_path f log_file)]) ++
        [Event.renderImage (pngPath f)
           (create_face { point := Vec3.mk x y z, normal := Vec3.mk nx ny nz }
             (extentOf (K.boundingBox s))),
         Event.logOpen (output_file_path (output_file_path f out) log_file),
         Event.writeStepFile (output_file_path f out)] := by
      simp [visTrace]
    rw [htr]
    exact List.Sublist.trans
      (List.Sublist.cons₂ _ (List.Sublist.cons _ (List.Sublist.refl _)))
      (List.sublist_append_right _ _)
  · simp [visTrace]

/-- C5 witness: a concrete non-empty run with failing write status errors
out while the image export event is already in the trace, before the write
event. -/
theorem c5_witness :
    (main Kwfail inPath [(0 : ℚ), 0, 0, 0, 0, 1] outName).2 =
      Except.error RunError.GeometryWriteFailed ∧
    List.Sublist
      [Event.renderImage (pngPath inPath)
         (create_face { point := Vec3.mk 0 0 0, normal := Vec3.mk 0 0 1 }
           (extentOf (Kwfail.boundingBox cube))),
       Event.writeStepFile (output_file_path inPath outName)]
      (main Kwfail inPath [(0 : ℚ), 0, 0, 0, 0, 1] outName).1 ∧
    Event.renderImage (pngPath inPath)
        (create_face { point := Vec3.mk 0 0 0, normal := Vec3.mk 0 0 1 }
          (extentOf (Kwfail.boundingBox cube)))
      ∈ (main Kwfail inPath [(0 : ℚ), 0, 0, 0, 0, 1] outName).1 :=
  c5_write_fail_keeps_image Kwfail inPath outName 0 0 0 0 0 1 cube
    sampleSection rfl rfl (by decide) rfl rfl (by decide)

/-- C2: the extent is the maximum of the bounding-box spans, and in a
non-empty run exactly this value, with no margin, is the half-extent of the
rendered face in both in-plane directions, giving a square patch of side
twice the extent. -/
theorem c2_extent_square_patch (K : Kernel) (f out : Str)
    (x y z nx ny nz : ℚ) (s rs : Shape)
    (hfile : K.isFile f = true)
    (hr : K.readStep f = some s)
    (hn : Vec3.mk nx ny nz ≠ vecZero)
    (hs : K.sectionShape s
      { point := Vec3.mk x y z, normal := Vec3.mk nx ny nz } = some rs)
    (he : hasEdge rs = true) :
    extentOf (K.boundingBox s) =
      max ((K.boundingBox s).xmax - (K.boundingBox s).xmin)
        (max ((K.boundingBox s).ymax - (K.boundingBox s).ymin)
          ((K.boundingBox s).zmax - (K.boundingBox s).zmin)) ∧
    Event.renderImage (pngPath f)
        (create_face { point := Vec3.mk x y z, normal := Vec3.mk nx ny nz }
          (extentOf (K.boundingBox s)))
      ∈ (main K f [x, y, z, nx, ny, nz] out).1 ∧
    (∀ pl e, (create_face pl e).uMax = e ∧ (create_face pl e).uMin = -e ∧
      (create_face pl e).vMax = e ∧ (create_face pl e).vMin = -e ∧
      (create_face pl e).uMax - (create_face pl e).uMin = 2 * e ∧
      (create_face pl e).vMax - (create_face pl e).vMin = 2 * e) := by
  refine ⟨rfl, ?_, ?_⟩
  · by_cases hw : K.writeStatus rs (output_file_path f out) = 1
    · rw [main_nonempty_ok K f out x y z nx ny nz s rs hfile hr hn hs he hw]
      simp [visTrace]
    · rw [main_nonempty_fail K f out x y z nx ny nz s rs hfile hr hn hs he hw]
      simp [visTrace]
  · intro pl e
    refine ⟨rfl, rfl, rfl, rfl, by simp [create_face]; ring, by simp [create_face]; ring⟩

/-- C2 witness: at the sample box with spans (1, 2, 3) the extent is 3 and
the rendered face in the concrete run is the square with that half-extent. -/
theorem c2_witness :
    extentOf (K0.boundingBox cube) =
      max ((K0.boundingBox cube).xmax - (K0.boundingBox cube).xmin)
        (max ((K0.boundingBox cube).ymax - (K0.boundingBox cube).ymin)
          ((K0.boundingBox cube).zmax - (K0.boundingBox cube).zmin)) ∧
    Event.renderImage (pngPath inPath)
        (create_face { point := Vec3.mk 0 0 0, normal := Vec3.mk 0 0 1 }
          (extentOf (K0.boundingBox cube)))
      ∈ (main K0 inPath [(0 : ℚ), 0, 0, 0, 0, 1] outName).1 ∧
    (∀ pl e, (create_face pl e).uMax = e ∧ (create_face pl e).uMin = -e ∧
      (create_face pl e).vMax = e ∧ (create_face pl e).vMin = -e ∧
      (create_face pl e).uMax - (create_face pl e).uMin = 2 * e ∧
      (create_face pl e).vMax - (create_face pl e).vMin = 2 * e) :=
  c2_extent_square_patch K0 inPath outName 0 0 0 0 0 1 cube sampleSection
    rfl rfl (by decide) rfl rfl

/-- C7 counterexample: with an absolute out-step value the final write
stage opens its log in the OUTPUT file's directory, not the input STEP
file's directory, refuting "the log file is written to the input file's
directory for every stage". -/
theorem c7_counterexample :
    Event.logOpen (str "/b/lib_occ.log") ∈
      (main K0 inPath [(0 : ℚ), 0, 0, 0, 0, 1] outAbs).1 ∧
    str "/b/lib_occ.log" ≠ output_file_path inPath log_file := by
  constructor
  · decide
  · decide

/-- C7 (amended): in a full non-empty successful run every pipeline stage
up to and including the visualization logs to the input file's directory
(six log openings), but the final solid-file write logs to the directory of
the output file, which coincides with the input file's directory only when
the resolved output path lies there. -/
theorem c7_log_paths (K : Kernel) (f out : Str) (x y z nx ny nz : ℚ)
    (s rs : Shape)
    (hfile : K.isFile f = true)
    (hr : K.readStep f = some s)
    (hn : Vec3.mk nx ny nz ≠ vecZero)
    (hs : K.sectionShape s
      { point := Vec3.mk x y z, normal := Vec3.mk nx ny nz } = some rs)
    (he : hasEdge rs = true)
    (hw : K.writeStatus rs (output_file_path f out) = 1) :
    logPaths (main K f [x, y, z, nx, ny, nz] out).1 =
      List.replicate 6 (output_file_path f log_file) ++
        [output_file_path (output_file_path f out) log_file] := by
  rw [main_nonempty_ok K f out x y z nx ny nz s rs hfile hr hn hs he hw]
  simp [logPaths, sectionOkTrace, readOkTrace, visTrace, List.replicate]

/-- C7 witness: the amended log-path shape at a concrete successful run
with the default-style relative output name. -/
theorem c7_witness :
    logPaths (main K0 inPath [(0 : ℚ), 0, 0, 0, 0, 1] outName).1 =
      List.replicate 6 (output_file_path inPath log_file) ++
        [output_file_path (output_file_path inPath outName) log_file] :=
  c7_log_paths K0 inPath outName 0 0 0 0 0 1 cube sampleSection rfl rfl
    (by decide) rfl rfl rfl

end StepIntersector
